import Mathlib

/-!
Verification of the champion/challenger selection-and-promotion core of the
telco-churn ML pipeline, as a shallow embedding of the Python sources
`src/pipeline/update_config.py`, `src/deployment/services/model_service.py`
and `src/configs/__init__.py`.

External collaborators (the MLflow tracking store, the model registry and the
model loader) are modelled as explicit function/value parameters; float metric
values are modelled as integers since the code only compares them.
-/

namespace TelcoChurn

/-! ### Selector: `get_best_models` in src/pipeline/update_config.py

A row of the `runs_df` dataframe returned by `mlflow.search_runs`, projected
to the columns the function reads: `run_id`, `tags.mlflow.runName` and the
chosen metric column `metrics.{metric}`. -/

structure RunRow where
  run_id : String
  run_name : String
  metric : Int
deriving DecidableEq, Repr

/-- Experiment record returned by `mlflow.get_experiment_by_name`, projected
to the `experiment_id` field the code reads. -/
structure Experiment where
  experiment_id : String
deriving DecidableEq, Repr

/-- Error raised by the selector; the code raises `ValueError` on both failure
paths, which the spec taxonomy names `NotFoundError`. -/
inductive SelectError where
  | notFound (msg : String)
deriving DecidableEq, Repr

/-- The Run Metadata Store interface used by `get_best_models`:
`getExperimentByName` models `mlflow.get_experiment_by_name` and
`searchRuns` models `mlflow.search_runs(experiment_ids=[id],
order_by=[metrics.metric DESC])` - the ordering is produced by the store. -/
structure TrackingStore where
  getExperimentByName : String → Option Experiment
  searchRuns : String → List RunRow

/-- The `champion_info` / `challenger_info` dict built by `get_best_models`
from a dataframe row (the `accuracy` key holds the chosen metric column). -/
structure ModelInfo where
  run_id : String
  run_name : String
  accuracy : Int
deriving DecidableEq, Repr

def mkModelInfo (r : RunRow) : ModelInfo :=
  { run_id := r.run_id, run_name := r.run_name, accuracy := r.metric }

/-- Shallow embedding of `get_best_models` (src/pipeline/update_config.py,
lines 22-84): raise if the experiment is missing, raise if `runs_df` is
empty, otherwise champion is `runs_df.iloc[0]` and challenger is
`runs_df.iloc[1]` when a second row exists, else the champion again. -/
def get_best_models (store : TrackingStore) (experiment_name : String) :
    Except SelectError (ModelInfo × ModelInfo) :=
  match store.getExperimentByName experiment_name with
  | none => .error (.notFound ("Experiment " ++ experiment_name ++ " not found"))
  | some experiment =>
    match store.searchRuns experiment.experiment_id with
    | [] => .error (.notFound ("No runs found in experiment " ++ experiment_name))
    | champion :: rest =>
      let challenger := match rest with
        | [] => champion
        | c :: _ => c
      .ok (mkModelInfo champion, mkModelInfo challenger)

/-- Runs are ordered by the chosen metric descending (the `order_by` clause
handed to the store). -/
def MetricSortedDesc (runs : List RunRow) : Prop :=
  List.Sorted (fun a b => b.metric ≤ a.metric) runs

instance (runs : List RunRow) : Decidable (MetricSortedDesc runs) :=
  List.decidableSorted runs

/-! ### Promoter: `register_models` in src/pipeline/update_config.py

The registry side effects (`mlflow.register_model` plus
`client.set_registered_model_alias`) live in one try/except block per model;
each block either succeeds, yielding the new version's number, or raises,
which the code catches and logs. Each block's outcome is a parameter. -/

/-- Outcome of one try-block against the Model Registry: the new registered
version number, or the text of the exception the registry raised. -/
inductive RegOutcome where
  | ok (version : Nat)
  | err (msg : String)
deriving DecidableEq, Repr

/-- Alias bindings held by the Model Registry:
(model_name, alias) entries mapping to a version number. -/
structure RegistryState where
  aliases : List ((String × String) × Nat)
deriving DecidableEq, Repr

/-- Models `client.set_registered_model_alias(name, alias, version)`: one
alias maps to exactly one version at a time per model name (overwritten). -/
def setRegisteredModelAlias (st : RegistryState) (name aliasName : String)
    (version : Nat) : RegistryState :=
  { aliases := ((name, aliasName), version) ::
      st.aliases.filter (fun e => decide (e.1 ≠ (name, aliasName))) }

def lookupAlias (st : RegistryState) (name aliasName : String) : Option Nat :=
  (st.aliases.find? (fun e => e.1 == (name, aliasName))).map (·.2)

/-- Shallow embedding of `register_models` (src/pipeline/update_config.py,
lines 87-151). `champOutcome` stands for the champion try-block
(register plus alias), `chalOutcome` for the challenger one; an `err`
outcome is caught and logged (`logger.warning`) and the function proceeds.
The returned pair is built outside both try blocks, so it is produced
whatever the outcomes were. -/
def register_models (champOutcome chalOutcome : RegOutcome)
    (champion_info challenger_info : ModelInfo) (st : RegistryState) :
    RegistryState × (String × String) :=
  let champion_model_name := champion_info.run_name
  let st1 := match champOutcome with
    | .ok champion_version =>
        setRegisteredModelAlias st champion_model_name "champion" champion_version
    | .err _ => st
  let challenger_model_name := challenger_info.run_name
  let st2 := match chalOutcome with
    | .ok challenger_version =>
        setRegisteredModelAlias st1 challenger_model_name "challenger" challenger_version
    | .err _ => st1
  (st2,
    ("models:/" ++ champion_model_name ++ "@champion",
     "models:/" ++ challenger_model_name ++ "@challenger"))

/-! ### Config Publisher: `update_prod_config` in src/pipeline/update_config.py

The production config is a YAML mapping; `yaml.safe_load` yields a Python
dict, modelled as an association list of string keys to scalar values.
Python dict assignment updates an existing key in place (keeping its
position) or appends a new one at the end; `setdefault` appends only when
the key is missing. -/

/-- A YAML scalar value as the config uses them: string or integer. -/
inductive Val where
  | s (v : String)
  | n (v : Int)
deriving DecidableEq, Repr

/-- The parsed config mapping. -/
abbrev Config := List (String × Val)

/-- First value bound to a key, as dict lookup. -/
def lookupKey (c : Config) (k : String) : Option Val :=
  match c with
  | [] => none
  | (k0, v0) :: rest => if k0 = k then some v0 else lookupKey rest k

/-- Python dict assignment `config[k] = v`: overwrite the value at an
existing key, else append the new binding. -/
def setKey (c : Config) (k : String) (v : Val) : Config :=
  if (lookupKey c k).isSome then
    c.map (fun p => if p.1 = k then (k, v) else p)
  else
    c ++ [(k, v)]

/-- Python `config.setdefault(k, v)`: append the binding only when the key
is missing. -/
def setDefault (c : Config) (k : String) (v : Val) : Config :=
  if (lookupKey c k).isSome then c else c ++ [(k, v)]

/-- Shallow embedding of the read-modify part of `update_prod_config`
(src/pipeline/update_config.py, lines 181-198): set the two model URIs,
then `setdefault` each documented default. The result is what
`yaml.dump` writes back. -/
def update_prod_config (champion_uri challenger_uri : String) (config : Config) :
    Config :=
  let c1 := setKey config "model_uri" (.s champion_uri)
  let c2 := setKey c1 "fallback_model_uri" (.s challenger_uri)
  let c3 := setDefault c2 "flavor" (.s "python_function")
  let c4 := setDefault c3 "mlflow_port" (.n 5000)
  let c5 := setDefault c4 "mlflow_host" (.s "127.0.0.1")
  let c6 := setDefault c5 "api_host" (.s "127.0.0.1")
  let c7 := setDefault c6 "api_port" (.n 8000)
  let c8 := setDefault c7 "workers" (.n 2)
  setDefault c8 "timeout" (.n 120)

/-- State of the config file before a call: `none` when the file is missing
or parses to nothing (`yaml.safe_load(f) or \x7b\x7d` yields the empty
dict), `some c` when it holds mapping `c`. -/
def readConfigFile (file : Option Config) : Config :=
  file.getD []

/-- One full call of `update_prod_config` at the file level: load the
existing config (or start empty), transform, write the whole record back. -/
def update_prod_config_file (champion_uri challenger_uri : String)
    (file : Option Config) : Config :=
  update_prod_config champion_uri challenger_uri (readConfigFile file)

/-! ### Serving Reload Contract: src/deployment/services/model_service.py
and src/configs/__init__.py

`mlflow.pyfunc.load_model` is modelled as a function from a URI string to
`Option Model` (`none` models the raised exception); the MLflow server
health probe outcome is the boolean `server_running`. -/

/-- A loaded pyfunc model handle, identified opaquely. -/
structure Model where
  handle : String
deriving DecidableEq, Repr

/-- The config fields `initialize_model_service` reads for model loading. -/
structure ServeConfig where
  model_uri : String
  fallback_model_uri : String
deriving DecidableEq, Repr

/-- Error escaping `initialize_model_service` when the champion and the
fallback both fail to load; the spec taxonomy names it
`ModelUnavailableError`. -/
inductive ServiceError where
  | modelUnavailable
deriving DecidableEq, Repr

/-- Local champion artifact path hard-coded for the no-server branch
(src/deployment/services/model_service.py, lines 46-49). -/
def champion_local_path : String :=
  "mlartifacts/878427477543592209/models/m-de9a52a05f5d4977a99cecddac67c397/artifacts"

/-- Local fallback artifact path hard-coded for the no-server branch
(src/deployment/services/model_service.py, lines 52-55). -/
def fallback_local_path : String :=
  "mlartifacts/878427477543592209/models/m-3ae216e9f8194d8485da598362f03817/artifacts"

/-- Shallow embedding of `initialize_model_service`
(src/deployment/services/model_service.py, lines 11-70): with a running
MLflow server, try `config[model_uri]` and on failure
`config[fallback_model_uri]`; without one, try the two hard-coded local
artifact paths. A second failure propagates to the caller. -/
def initialize_model_service (load : String → Option Model)
    (server_running : Bool) (config : ServeConfig) : Except ServiceError Model :=
  if server_running then
    match load config.model_uri with
    | some m => .ok m
    | none =>
      match load config.fallback_model_uri with
      | some m => .ok m
      | none => .error .modelUnavailable
  else
    match load champion_local_path with
    | some m => .ok m
    | none =>
      match load fallback_local_path with
      | some m => .ok m
      | none => .error .modelUnavailable

/-- URI tried first by `initialize_model_service` given the health probe
outcome. -/
def attempted_model_uri (server_running : Bool) (config : ServeConfig) : String :=
  if server_running then config.model_uri else champion_local_path

/-- URI tried second (the fallback) by `initialize_model_service` given the
health probe outcome. -/
def attempted_fallback_uri (server_running : Bool) (config : ServeConfig) : String :=
  if server_running then config.fallback_model_uri else fallback_local_path

/-- Process-wide serving state: the module globals `config` and `model` of
model_service.py (the config snapshot and the active model handle). -/
structure ServingState where
  config : ServeConfig
  model : Model
deriving DecidableEq, Repr

/-- Models `reload_config` (src/configs/__init__.py, lines 18-22): re-read
the config file from disk and install it as the process-wide config. -/
def reload_config (disk : ServeConfig) : ServeConfig :=
  disk

/-- Shallow embedding of `restart_model_service`
(src/deployment/services/model_service.py, lines 90-98): first reassign the
global `config` from disk via `reload_config`, then reassign the global
`model` from `initialize_model_service()`. When the load raises, the
exception propagates before the `model` assignment, leaving the old handle
in the global but the new config already installed. -/
def restart_model_service (load : String → Option Model)
    (server_running : Bool) (disk : ServeConfig) (st : ServingState) :
    ServingState × Except ServiceError Unit :=
  let config := reload_config disk
  match initialize_model_service load server_running config with
  | .ok m => ({ config := config, model := m }, .ok ())
  | .error e => ({ config := config, model := st.model }, .error e)

/-! ### Helper lemmas about config mappings -/

lemma lookupKey_append (c d : Config) (k : String) :
    lookupKey (c ++ d) k =
      if (lookupKey c k).isSome then lookupKey c k else lookupKey d k := by
  induction c with
  | nil => simp [lookupKey]
  | cons p rest ih =>
    by_cases h : p.1 = k
    · simp [lookupKey, h]
    · simpa [lookupKey, h] using ih

lemma cons_head_set (k0 : String) (v0 : Val) (k : String) (v : Val)
    (hp : k0 = k) : (if (k0, v0).1 = k then (k, v) else (k0, v0)) = (k, v) := by
  simp [hp]

lemma cons_head_keep (k0 : String) (v0 : Val) (k : String) (v : Val)
    (hp : ¬k0 = k) : (if (k0, v0).1 = k then (k, v) else (k0, v0)) = (k0, v0) := by
  simp [hp]

lemma lookupKey_map_set (c : Config) (k k' : String) (v : Val) :
    lookupKey (c.map (fun p => if p.1 = k then (k, v) else p)) k' =
      if k' = k then (lookupKey c k).map (fun _ => v) else lookupKey c k' := by
  induction c with
  | nil => by_cases h : k' = k <;> simp [lookupKey, h]
  | cons p rest ih =>
    obtain ⟨k0, v0⟩ := p
    simp only [List.map_cons]
    by_cases hp : k0 = k
    · subst hp
      rw [cons_head_set k0 v0 k0 v rfl]
      by_cases hk : k' = k0
      · subst hk
        simp [lookupKey, ih]
      · simp [lookupKey, hk, Ne.symm hk, ih]
    · rw [cons_head_keep k0 v0 k v hp]
      by_cases hk : k' = k
      · subst hk
        simp [lookupKey, hp, ih]
      · by_cases hpk : k0 = k'
        · simp [lookupKey, hpk, hk]
        · simp [lookupKey, hpk, hk, ih]

lemma lookupKey_setKey_self (c : Config) (k : String) (v : Val) :
    lookupKey (setKey c k v) k = some v := by
  unfold setKey
  by_cases h : (lookupKey c k).isSome
  · rcases Option.isSome_iff_exists.mp h with ⟨w, hw⟩
    simp [lookupKey_map_set, hw]
  · simp [h, lookupKey_append, Option.not_isSome_iff_eq_none.mp h, lookupKey]

lemma lookupKey_setKey_ne (c : Config) (k k' : String) (v : Val)
    (h : k' ≠ k) : lookupKey (setKey c k v) k' = lookupKey c k' := by
  unfold setKey
  by_cases hs : (lookupKey c k).isSome
  · simp [hs, lookupKey_map_set, h]
  · simp only [hs, if_neg, Bool.false_eq_true, not_false_iff, if_false]
    rw [lookupKey_append]
    by_cases h2 : (lookupKey c k').isSome
    · simp [h2]
    · simp [h2, Option.not_isSome_iff_eq_none.mp h2, lookupKey, h, Ne.symm h]

lemma lookupKey_setDefault_self (c : Config) (k : String) (v : Val) :
    lookupKey (setDefault c k v) k = some ((lookupKey c k).getD v) := by
  unfold setDefault
  by_cases h : (lookupKey c k).isSome
  · rcases Option.isSome_iff_exists.mp h with ⟨w, hw⟩
    simp [h, hw]
  · simp [h, lookupKey_append, Option.not_isSome_iff_eq_none.mp h, lookupKey]

lemma lookupKey_setDefault_ne (c : Config) (k k' : String) (v : Val)
    (h : k' ≠ k) : lookupKey (setDefault c k v) k' = lookupKey c k' := by
  unfold setDefault
  by_cases hs : (lookupKey c k).isSome
  · simp [hs]
  · simp only [hs, Bool.false_eq_true, if_false]
    rw [lookupKey_append]
    by_cases h2 : (lookupKey c k').isSome
    · simp [h2]
    · simp [h2, Option.not_isSome_iff_eq_none.mp h2, lookupKey, h, Ne.symm h]

lemma lookupKey_setKey (c : Config) (k k' : String) (v : Val) :
    lookupKey (setKey c k v) k' = if k' = k then some v else lookupKey c k' := by
  by_cases h : k' = k
  · subst h
    simp [lookupKey_setKey_self]
  · simp [h, lookupKey_setKey_ne c k k' v h]

lemma lookupKey_setDefault (c : Config) (k k' : String) (v : Val) :
    lookupKey (setDefault c k v) k' =
      if k' = k then some ((lookupKey c k).getD v) else lookupKey c k' := by
  by_cases h : k' = k
  · subst h
    simp [lookupKey_setDefault_self]
  · simp [h, lookupKey_setDefault_ne c k k' v h]

/-- Full characterization of one publish pass: the two URI keys are
overwritten, the seven documented defaults fill in only when missing, and
every other key keeps its value. -/
lemma lookupKey_update_prod_config (u1 u2 : String) (c : Config) (k : String) :
    lookupKey (update_prod_config u1 u2 c) k =
      if k = "model_uri" then some (.s u1)
      else if k = "fallback_model_uri" then some (.s u2)
      else if k = "flavor" then some ((lookupKey c k).getD (.s "python_function"))
      else if k = "mlflow_port" then some ((lookupKey c k).getD (.n 5000))
      else if k = "mlflow_host" then some ((lookupKey c k).getD (.s "127.0.0.1"))
      else if k = "api_host" then some ((lookupKey c k).getD (.s "127.0.0.1"))
      else if k = "api_port" then some ((lookupKey c k).getD (.n 8000))
      else if k = "workers" then some ((lookupKey c k).getD (.n 2))
      else if k = "timeout" then some ((lookupKey c k).getD (.n 120))
      else lookupKey c k := by
  unfold update_prod_config
  simp only [lookupKey_setKey, lookupKey_setDefault]
  by_cases h1 : k = "model_uri"
  · subst h1
    simp
  by_cases h2 : k = "fallback_model_uri"
  · subst h2
    simp
  by_cases h3 : k = "flavor"
  · subst h3
    simp
  by_cases h4 : k = "mlflow_port"
  · subst h4
    simp
  by_cases h5 : k = "mlflow_host"
  · subst h5
    simp
  by_cases h6 : k = "api_host"
  · subst h6
    simp
  by_cases h7 : k = "api_port"
  · subst h7
    simp
  by_cases h8 : k = "workers"
  · subst h8
    simp
  by_cases h9 : k = "timeout"
  · subst h9
    simp
  simp [h1, h2, h3, h4, h5, h6, h7, h8, h9]

/-! ### Claim theorems -/

/-- C1: for every experiment with at least two completed runs, `select`
(`get_best_models`) returns a champion distinct from the challenger, and the
champion's value of the chosen metric is at least the challenger's, because
the runs come back ordered by that metric descending and ranks 1 and 2 are
taken. Run ids within an experiment are pairwise distinct (store invariant). -/
theorem select_two_runs_champion_distinct_and_ge
    (store : TrackingStore) (experiment_name : String) (e : Experiment)
    (runs : List RunRow)
    (hexp : store.getExperimentByName experiment_name = some e)
    (hruns : store.searchRuns e.experiment_id = runs)
    (hlen : 2 ≤ runs.length)
    (hsorted : MetricSortedDesc runs)
    (hids : (runs.map RunRow.run_id).Nodup) :
    ∃ champion challenger,
      get_best_models store experiment_name = .ok (champion, challenger) ∧
      champion ≠ challenger ∧ challenger.accuracy ≤ champion.accuracy := by
  obtain ⟨a, b, t, rfl⟩ : ∃ a b t, runs = a :: b :: t := by
    match runs, hlen with
    | a :: b :: t, _ => exact ⟨a, b, t, rfl⟩
  refine ⟨mkModelInfo a, mkModelInfo b, ?_, ?_, ?_⟩
  · simp [get_best_models, hexp, hruns]
  · have hab : a.run_id ≠ b.run_id := by
      simp only [List.map_cons] at hids
      rcases List.nodup_cons.mp hids with ⟨hnm, _⟩
      exact fun h => hnm (by simp [h])
    intro h
    exact hab (congrArg ModelInfo.run_id h)
  · have h := (List.sorted_cons.mp hsorted).1 b (by simp)
    simpa [mkModelInfo] using h

/-- Witness for C1 at a concrete store holding two runs. -/
theorem select_two_runs_witness :
    ∃ champion challenger,
      get_best_models
        { getExperimentByName := fun nm =>
            if nm = "Telco_Churn_Models" then some { experiment_id := "1" } else none,
          searchRuns := fun _ =>
            [{ run_id := "r1", run_name := "lgbm", metric := 90 },
             { run_id := "r2", run_name := "xgb", metric := 80 }] }
        "Telco_Churn_Models" = .ok (champion, challenger) ∧
      champion ≠ challenger ∧ challenger.accuracy ≤ champion.accuracy :=
  select_two_runs_champion_distinct_and_ge _ _ { experiment_id := "1" }
    [{ run_id := "r1", run_name := "lgbm", metric := 90 },
     { run_id := "r2", run_name := "xgb", metric := 80 }]
    (by simp) rfl (by decide) (by decide) (by decide)

/-- C4: `select` fails with `NotFoundError` both when the experiment name
does not resolve to an existing experiment and when the resolved experiment
has zero completed runs (the code raises `ValueError` on both paths, the
spec's `NotFoundError`). -/
theorem select_notfound_on_missing_experiment_or_zero_runs
    (store : TrackingStore) (experiment_name : String) :
    (store.getExperimentByName experiment_name = none →
      get_best_models store experiment_name =
        .error (.notFound ("Experiment " ++ experiment_name ++ " not found"))) ∧
    (∀ e, store.getExperimentByName experiment_name = some e →
      store.searchRuns e.experiment_id = [] →
      get_best_models store experiment_name =
        .error (.notFound ("No runs found in experiment " ++ experiment_name))) := by
  constructor
  · intro h
    simp [get_best_models, h]
  · intro e he hr
    simp [get_best_models, he, hr]

/-- Witness for C4: a store with no experiment, and one whose experiment has
zero runs. -/
theorem select_notfound_witness :
    get_best_models
        { getExperimentByName := fun _ => none, searchRuns := fun _ => [] }
        "X" = .error (.notFound ("Experiment " ++ "X" ++ " not found")) ∧
    get_best_models
        { getExperimentByName := fun _ => some { experiment_id := "7" },
          searchRuns := fun _ => [] }
        "X" = .error (.notFound ("No runs found in experiment " ++ "X")) :=
  ⟨(select_notfound_on_missing_experiment_or_zero_runs _ "X").1 rfl,
   (select_notfound_on_missing_experiment_or_zero_runs _ "X").2
     { experiment_id := "7" } rfl rfl⟩

/-- C9: for an experiment with exactly one completed run, `select` returns
champion equal to challenger - the single run fills both positions. -/
theorem select_single_run_self_pairing
    (store : TrackingStore) (experiment_name : String) (e : Experiment)
    (r : RunRow)
    (hexp : store.getExperimentByName experiment_name = some e)
    (hruns : store.searchRuns e.experiment_id = [r]) :
    get_best_models store experiment_name = .ok (mkModelInfo r, mkModelInfo r) := by
  simp [get_best_models, hexp, hruns]

/-- Witness for C9 at a concrete one-run store. -/
theorem select_single_run_witness :
    get_best_models
        { getExperimentByName := fun _ => some { experiment_id := "1" },
          searchRuns := fun _ =>
            [{ run_id := "r1", run_name := "lgbm", metric := 90 }] }
        "Telco_Churn_Models" =
      .ok (mkModelInfo { run_id := "r1", run_name := "lgbm", metric := 90 },
           mkModelInfo { run_id := "r1", run_name := "lgbm", metric := 90 }) :=
  select_single_run_self_pairing _ _ { experiment_id := "1" }
    { run_id := "r1", run_name := "lgbm", metric := 90 } rfl rfl

/-- C8: `promote` (`register_models`) never raises on a registry failure:
each model's try-block failure is caught, the function proceeds with the
next model (a successful challenger registration still lands even when the
champion block failed), and it always returns the pair of alias-addressed
URIs derived from the runs' display names, whatever the registry outcomes. -/
theorem register_models_total_and_alias_uris
    (champOutcome chalOutcome : RegOutcome)
    (champion_info challenger_info : ModelInfo) (st : RegistryState) :
    (register_models champOutcome chalOutcome champion_info challenger_info st).2 =
      ("models:/" ++ champion_info.run_name ++ "@champion",
       "models:/" ++ challenger_info.run_name ++ "@challenger") ∧
    (∀ v, chalOutcome = .ok v →
      lookupAlias
        (register_models champOutcome chalOutcome champion_info challenger_info st).1
        challenger_info.run_name "challenger" = some v) := by
  constructor
  · cases champOutcome <;> cases chalOutcome <;> rfl
  · intro v hv
    subst hv
    cases champOutcome <;>
      simp [register_models, lookupAlias, setRegisteredModelAlias, List.find?]

/-- Witness for C8: champion registration fails, challenger succeeds. -/
theorem register_models_witness :
    (register_models (.err "registry unreachable") (.ok 3)
        { run_id := "r1", run_name := "lgbm", accuracy := 90 }
        { run_id := "r2", run_name := "xgb", accuracy := 80 }
        { aliases := [] }).2 =
      ("models:/" ++ "lgbm" ++ "@champion",
       "models:/" ++ "xgb" ++ "@challenger") ∧
    lookupAlias
        (register_models (.err "registry unreachable") (.ok 3)
          { run_id := "r1", run_name := "lgbm", accuracy := 90 }
          { run_id := "r2", run_name := "xgb", accuracy := 80 }
          { aliases := [] }).1 "xgb" "challenger" = some 3 :=
  ⟨(register_models_total_and_alias_uris _ _ _ _ _).1,
   (register_models_total_and_alias_uris _ _ _ _ _).2 3 rfl⟩

/-- C6: `publish` (`update_prod_config`) is idempotent: for every pair of
URIs and every starting state of the config file, calling it twice with the
same URIs yields a record equal as a key-value mapping to one call. -/
theorem publish_idempotent (u1 u2 : String) (file : Option Config) (k : String) :
    lookupKey (update_prod_config_file u1 u2
        (some (update_prod_config_file u1 u2 file))) k =
      lookupKey (update_prod_config_file u1 u2 file) k := by
  simp only [update_prod_config_file, readConfigFile, Option.getD_some]
  by_cases h1 : k = "model_uri"
  · subst h1
    simp [lookupKey_update_prod_config]
  by_cases h2 : k = "fallback_model_uri"
  · subst h2
    simp [lookupKey_update_prod_config]
  by_cases h3 : k = "flavor"
  · subst h3
    simp [lookupKey_update_prod_config]
  by_cases h4 : k = "mlflow_port"
  · subst h4
    simp [lookupKey_update_prod_config]
  by_cases h5 : k = "mlflow_host"
  · subst h5
    simp [lookupKey_update_prod_config]
  by_cases h6 : k = "api_host"
  · subst h6
    simp [lookupKey_update_prod_config]
  by_cases h7 : k = "api_port"
  · subst h7
    simp [lookupKey_update_prod_config]
  by_cases h8 : k = "workers"
  · subst h8
    simp [lookupKey_update_prod_config]
  by_cases h9 : k = "timeout"
  · subst h9
    simp [lookupKey_update_prod_config]
  simp [lookupKey_update_prod_config, h1, h2, h3, h4, h5, h6, h7, h8, h9]

/-- C7: `publish` is a non-destructive merge: any key other than
`model_uri` and `fallback_model_uri` that is present in the existing config
keeps its value verbatim; defaults only fill missing fields. -/
theorem publish_preserves_unrelated_keys (u1 u2 : String) (c : Config)
    (k : String) (v : Val)
    (h1 : k ≠ "model_uri") (h2 : k ≠ "fallback_model_uri")
    (hv : lookupKey c k = some v) :
    lookupKey (update_prod_config u1 u2 c) k = some v := by
  rw [lookupKey_update_prod_config]
  split_ifs <;> simp_all

/-- Witness for C7: a custom `workers: 7` survives a publish. -/
theorem publish_preserves_workers_witness :
    lookupKey (update_prod_config "models:/a@champion" "models:/b@challenger"
        [("workers", Val.n 7)]) "workers" = some (Val.n 7) :=
  publish_preserves_unrelated_keys "models:/a@champion" "models:/b@challenger"
    [("workers", Val.n 7)] "workers" (Val.n 7)
    (by decide) (by decide) rfl

/-- C10: after every publish the config mapping contains the two URI keys
and the seven documented default keys, plus every key it contained before:
no call removes a key, so the key set only grows. -/
theorem publish_config_keys_grow (u1 u2 : String) (c : Config) :
    (∀ k ∈ (["model_uri", "fallback_model_uri", "flavor", "mlflow_port",
             "mlflow_host", "api_host", "api_port", "workers",
             "timeout"] : List String),
      (lookupKey (update_prod_config u1 u2 c) k).isSome) ∧
    (∀ k, (lookupKey c k).isSome →
      (lookupKey (update_prod_config u1 u2 c) k).isSome) := by
  constructor
  · intro k hk
    fin_cases hk <;> simp [lookupKey_update_prod_config]
  · intro k hk
    rw [lookupKey_update_prod_config]
    split_ifs <;> simp_all

/-- Witness for C10: a pre-existing custom key and a mandatory key are both
present after a publish. -/
theorem publish_config_keys_grow_witness :
    (lookupKey (update_prod_config "u1" "u2" [("custom", Val.n 1)])
        "custom").isSome ∧
    (lookupKey (update_prod_config "u1" "u2" [("custom", Val.n 1)])
        "model_uri").isSome :=
  ⟨(publish_config_keys_grow "u1" "u2" [("custom", Val.n 1)]).2 "custom" rfl,
   (publish_config_keys_grow "u1" "u2" [("custom", Val.n 1)]).1 "model_uri"
     (by simp)⟩

/-- C3: if loading the champion model fails and loading the challenger
(fallback) model also fails, `initialize_model_service` fails with
`ModelUnavailableError` rather than returning without a model. -/
theorem initialize_both_loads_fail (load : String → Option Model)
    (server_running : Bool) (config : ServeConfig)
    (h1 : load (attempted_model_uri server_running config) = none)
    (h2 : load (attempted_fallback_uri server_running config) = none) :
    initialize_model_service load server_running config =
      .error .modelUnavailable := by
  cases server_running <;>
    simp_all [initialize_model_service, attempted_model_uri,
      attempted_fallback_uri]

/-- Witness for C3: a loader failing on every URI. -/
theorem initialize_both_loads_fail_witness :
    initialize_model_service (fun _ => none) true
        { model_uri := "models:/a@champion",
          fallback_model_uri := "models:/b@challenger" } =
      .error .modelUnavailable :=
  initialize_both_loads_fail (fun _ => none) true
    { model_uri := "models:/a@champion",
      fallback_model_uri := "models:/b@challenger" } rfl rfl

/-- C5: if loading the champion model fails but loading the challenger
model succeeds, `initialize_model_service` returns successfully with the
challenger's model and raises nothing to the caller. -/
theorem initialize_fallback_succeeds (load : String → Option Model)
    (server_running : Bool) (config : ServeConfig) (m : Model)
    (h1 : load (attempted_model_uri server_running config) = none)
    (h2 : load (attempted_fallback_uri server_running config) = some m) :
    initialize_model_service load server_running config = .ok m := by
  cases server_running <;>
    simp_all [initialize_model_service, attempted_model_uri,
      attempted_fallback_uri]

/-- Witness for C5: the champion URI fails, the challenger URI loads. -/
theorem initialize_fallback_succeeds_witness :
    initialize_model_service
        (fun u => if u = "models:/b@challenger"
          then some { handle := "xgb" } else none)
        true
        { model_uri := "models:/a@champion",
          fallback_model_uri := "models:/b@challenger" } =
      .ok { handle := "xgb" } :=
  initialize_fallback_succeeds _ true
    { model_uri := "models:/a@champion",
      fallback_model_uri := "models:/b@challenger" }
    { handle := "xgb" } (by decide) (by decide)

/-- C2 counterexample: on a restart whose loads all fail, the serving state
does not remain in place - the config snapshot has already been replaced by
the freshly read one while the model handle kept its old value, so the
state is partially mutated, contradicting the claim that on any load
failure the previously active serving state remains in place. -/
theorem restart_partial_mutation_counterexample :
    (restart_model_service (fun _ => none) true
        { model_uri := "uriC", fallback_model_uri := "uriD" }
        { config := { model_uri := "uriA", fallback_model_uri := "uriB" },
          model := { handle := "m0" } }).2 = .error .modelUnavailable ∧
    (restart_model_service (fun _ => none) true
        { model_uri := "uriC", fallback_model_uri := "uriD" }
        { config := { model_uri := "uriA", fallback_model_uri := "uriB" },
          model := { handle := "m0" } }).1 ≠
      { config := { model_uri := "uriA", fallback_model_uri := "uriB" },
        model := { handle := "m0" } } := by
  exact ⟨rfl, by decide⟩

/-- C2 amended: `restart_model_service` replaces the active model handle
only after a new handle is successfully obtained, but it installs the
re-read config before attempting the load, so on a load failure the state
keeps the old model handle paired with the newly read config (a partial
mutation) instead of the previous serving state wholesale. -/
theorem restart_replaces_model_only_on_success (load : String → Option Model)
    (server_running : Bool) (disk : ServeConfig) (st : ServingState) :
    (∀ m, initialize_model_service load server_running (reload_config disk) =
        .ok m →
      restart_model_service load server_running disk st =
        ({ config := reload_config disk, model := m }, .ok ())) ∧
    (∀ e, initialize_model_service load server_running (reload_config disk) =
        .error e →
      restart_model_service load server_running disk st =
        ({ config := reload_config disk, model := st.model }, .error e)) := by
  constructor <;> intro x hx <;> simp [restart_model_service, hx]

/-- Witness for the amended C2 at a failing and a succeeding load. -/
theorem restart_replaces_model_witness :
    restart_model_service (fun _ => none) true
        { model_uri := "uriC", fallback_model_uri := "uriD" }
        { config := { model_uri := "uriA", fallback_model_uri := "uriB" },
          model := { handle := "m0" } } =
      ({ config := { model_uri := "uriC", fallback_model_uri := "uriD" },
         model := { handle := "m0" } }, .error .modelUnavailable) :=
  (restart_replaces_model_only_on_success (fun _ => none) true
    { model_uri := "uriC", fallback_model_uri := "uriD" }
    { config := { model_uri := "uriA", fallback_model_uri := "uriB" },
      model := { handle := "m0" } }).2 .modelUnavailable rfl

end TelcoChurn
